import Mathlib

/-!
Verification development for the key-range paging engine
(`src/classes/core/L3-keyrange-paging/keyrange-paging-engine.ts`).

The engine under scrutiny is `queryRange`, which orchestrates paginated
range retrieval over an ordered, indexed key-value store.  The underlying
store primitives (`getAll`, `openCursor`, cursor stepping, `cmp`, `get`)
live in other layers of the repository and are modelled here from the
specification of the collaborator contract.

Modelling conventions:
  * keys are natural numbers, compared by the usual order (the store's
    total key order `cmp`);
  * a record is identified with the index entry it produces: an `Entry`
    carries the indexed key and the primary key.  A "value" result is the
    entry itself, a "key" result is its primary key;
  * a live cursor is the list of entries it has yet to deliver, in
    iteration order;  a `null` cursor is `none`;
  * `Store.entries` is kept in ascending `(key, pk)` order by convention.
-/

namespace KRP

abbrev Key := Nat

/-- An index entry: the indexed key of the record under the queried index,
together with the record's primary key.  Values returned by the store are
identified with their entries. -/
structure Entry where
  key : Key
  pk : Key
deriving DecidableEq, Repr

/-- A result element: a full value (`values: true`) or a bare primary key. -/
inductive Item where
  | val (e : Entry)
  | key (k : Key)
deriving DecidableEq, Repr

/-- Projection performed by the engine when accumulating results:
`values ? cursor.value : cursor.primaryKey`. -/
def item (values : Bool) (e : Entry) : Item :=
  if values then Item.val e else Item.key e.pk

/-- Index metadata, per the data model: key length (0 signals an
implicit/outbound primary key), multi-valued flag, uniqueness, and whether
this is the primary-key index.  `extractKey` of the queried index maps an
entry to `Entry.key`; the primary-key index extracts `Entry.pk`. -/
structure IndexMeta where
  keyLength : Nat
  multiEntry : Bool
  unique : Bool
  isPrimaryKey : Bool
deriving DecidableEq, Repr

/-- A key range with optional bounds and open/closed flags. -/
structure KeyRange where
  lower : Option Key := none
  upper : Option Key := none
  lowerOpen : Bool := false
  upperOpen : Bool := false
deriving DecidableEq, Repr

/-- The modelled store layer: the ordered entry list of the queried
table+index, plus that index's metadata. -/
structure Store where
  entries : List Entry
  idx : IndexMeta
deriving DecidableEq, Repr

/-- The page token: a tagged union of the three variants.  A `cursor`
token embeds a live cursor (possibly `null`, as the engine stores whatever
`openCursor` produced); an `offset` token counts entries to skip; a
`lastKey` token carries the last indexed key and an optional
`lastPrimaryKey` tie-break. -/
inductive PageToken where
  | cursor (cursor : Option (List Entry))
  | offset (offset : Nat)
  | lastKey (lastKey : Key) (lastPrimaryKey : Option Key)
deriving DecidableEq, Repr

/-- A pagable key-range query: range, limit, and the four flags, plus an
optional inbound page token. -/
structure Query where
  range : KeyRange := {}
  limit : Nat := 0
  values : Bool := false
  unique : Bool := false
  reverse : Bool := false
  wantPageToken : Bool := false
  pageToken : Option PageToken := none
deriving DecidableEq, Repr

/-- A query-range response: result sequence, optional outbound token, and
the partial flag (absent in the source object means `false`). -/
structure QueryRangeResponse where
  result : List Item
  pageToken : Option PageToken := none
  partialFlag : Bool := false
deriving DecidableEq, Repr

/-- Store operations observable at the boundary to the underlying layer;
`queryRange` is instrumented to report which primitives it invoked. -/
inductive Op where
  | getAllOp
  | openCursorOp
  | getOp
deriving DecidableEq, Repr

/-- Membership of a key in a key range. -/
def inRange (r : KeyRange) (k : Key) : Bool :=
  (match r.lower with
   | none => true
   | some l => if r.lowerOpen then decide (l < k) else decide (l ≤ k)) &&
  (match r.upper with
   | none => true
   | some u => if r.upperOpen then decide (k < u) else decide (k ≤ u))

/-- Modelled from the spec: the entries of the store matching a range, in
ascending order (the store's native ordering). -/
def rangeEntries (s : Store) (r : KeyRange) : List Entry :=
  s.entries.filter (fun e => inRange r e.key)

/-- Keep the first entry of each run of equal indexed keys: the unique
filtering applied by a unique-direction cursor. -/
def dedupByKey : List Entry → List Entry
  | [] => []
  | e :: rest => e :: dedupByKey (rest.dropWhile (fun x => x.key == e.key))
termination_by l => l.length
decreasing_by
  simp only [List.length_cons]
  exact Nat.lt_succ_of_le (List.dropWhile_suffix _).length_le

/-- Modelled from the spec: the iteration sequence of a cursor opened on a
query: the range's entries, reversed when `reverse`, duplicate keys
suppressed when `unique`. -/
def iterSeq (s : Store) (q : Query) : List Entry :=
  let l := rangeEntries s q.range
  let l := if q.reverse then l.reverse else l
  if q.unique then dedupByKey l else l

/-- Modelled from the spec: `openCursor` of the underlying layer: a cursor
positioned at the first entry of the range, or `null` when the range is
empty. -/
def nextOpenCursor (s : Store) (q : Query) : Option (List Entry) :=
  match iterSeq s q with
  | [] => none
  | l => some l

/-- Modelled from the spec: `getAll` of the underlying layer: up to
`limit` matching entries in ascending order (the bulk read; direction and
unique filtering are not part of the getAll contract). -/
def nextGetAll (s : Store) (q : Query) : List Entry :=
  (rangeEntries s q.range).take q.limit

/-- Modelled from the spec: point lookup by primary key (`get`). -/
def nextGet (s : Store) (pk : Key) : Option Entry :=
  s.entries.find? (fun e => e.pk == pk)

/-- Whether an iteration position is strictly past the compound position
`(lk, p)` in the direction of iteration. -/
def pastPos (reverse : Bool) (lk : Key) (p : Key) (e : Entry) : Bool :=
  if reverse then
    decide (e.key < lk) || (decide (e.key = lk) && decide (e.pk < p))
  else
    decide (lk < e.key) || (decide (e.key = lk) && decide (p < e.pk))

/-- Modelled from the spec: the compound seek performed when a `lastKey`
token carries a `lastPrimaryKey`: the cursor is advanced past the exact
`(lastKey, lastPrimaryKey)` position before the first result is yielded. -/
def skipPast (reverse : Bool) (lk : Key) (p : Key) (cur : List Entry) : List Entry :=
  cur.dropWhile (fun e => !pastPos reverse lk p e)

/-- The reference scan: a single unbounded read of the whole range under
the query's flags, against which pagination is compared. -/
def refScan (s : Store) (q : Query) : List Item :=
  (iterSeq s q).map (item q.values)

/-- The engine's internal `openCursor` helper (source lines 47-84):
resolve the inbound token into a ready cursor.  No token: open on the
original range.  `cursor` token: the embedded cursor is the position.
`offset` token: open on the original range and wrap in the lazy offset
decorator (modelled as dropping the skipped entries).  `lastKey` token:
rewrite the lower (upper if `reverse`) bound to `lastKey` inclusive, open,
and when `lastPrimaryKey` is set advance past that compound position.
The second component records which store primitives were invoked. -/
def resolveCursor (s : Store) (q : Query) : Option (List Entry) × List Op :=
  match q.pageToken with
  | none => (nextOpenCursor s q, [Op.openCursorOp])
  | some (PageToken.cursor c) => (c, [])
  | some (PageToken.offset n) =>
      ((nextOpenCursor s q).map (List.drop n), [Op.openCursorOp])
  | some (PageToken.lastKey lk lpk) =>
      let q' : Query := if q.reverse then
          { q with range := { q.range with upper := some lk, upperOpen := false } }
        else
          { q with range := { q.range with lower := some lk, lowerOpen := false } }
      match lpk with
      | none => (nextOpenCursor s q', [Op.openCursorOp])
      | some p =>
          ((nextOpenCursor s q').map (skipPast q.reverse lk p), [Op.openCursorOp])

/-- The strategy selector (source lines 90-96): `useCursor` is true when
the inbound token is non-`lastKey`-typed, or `reverse`, or `unique`, or
the index has zero key length, or `limit < 10` with only primary keys
requested on a non-primary index. -/
def useCursorB (s : Store) (q : Query) : Bool :=
  (match q.pageToken with
   | some (PageToken.lastKey _ _) => false
   | some _ => true
   | none => false) ||
  q.reverse ||
  q.unique ||
  decide (s.idx.keyLength = 0) ||
  (decide (q.limit < 10) && !q.values && !s.idx.isPrimaryKey)

/-- The cursor iteration loop (source lines 114-119): push the current
entry, stop when `limit` results are collected (the remaining cursor is
returned), continue otherwise; exhaustion yields no remaining cursor. -/
def cursorIter (lim : Nat) : List Entry → List Entry → (List Entry × Option (List Entry))
  | [], acc => (acc.reverse, none)
  | e :: rest, acc =>
      if (e :: acc).length == lim then ((e :: acc).reverse, some rest)
      else cursorIter lim rest (e :: acc)

/-- The result object a fallback iteration resolves with: the source
resolves `cursor.start` with `{passed: true}`, with
`{lastPrimaryKey: cursor.primaryKey}`, or with `undefined` (all fields
absent model as `none`/`false`). -/
structure StopRes where
  passed : Bool := false
  lastPrimaryKey : Option Key := none
  primaryKey : Option Key := none
deriving DecidableEq, Repr

/-- The cursor fallback loop (source lines 141-149): for each entry, if
its indexed key is strictly past `lastKey` (by `cmp`), stop with
`{passed: true}`; otherwise accumulate the entry; if `limit` is reached,
stop with `{lastPrimaryKey: cursor.primaryKey}`; exhaustion yields no
stop result. -/
def fallbackIter (lim : Nat) (lk : Key) : List Entry → List Entry → (List Entry × Option StopRes)
  | [], acc => (acc.reverse, none)
  | e :: rest, acc =>
      if lk < e.key then (acc.reverse, some { passed := true })
      else if (e :: acc).length < lim then fallbackIter lim lk rest (e :: acc)
      else ((e :: acc).reverse, some { lastPrimaryKey := some e.pk })

/-- The cursor-path response (source lines 105-123): empty result on a
null cursor; otherwise iterate; on reaching the limit with
`wantPageToken`, a `cursor` token capturing the remaining cursor. -/
def cursorPathResp (q : Query) (oc : Option (List Entry)) : QueryRangeResponse :=
  match oc with
  | none => { result := [] }
  | some cur =>
      match cursorIter q.limit cur [] with
      | (consumed, some rest) =>
          if q.wantPageToken then
            { result := consumed.map (item q.values)
              pageToken := some (PageToken.cursor (some rest)) }
          else { result := consumed.map (item q.values) }
      | (consumed, none) => { result := consumed.map (item q.values) }

/-- The fallback-path response (source lines 137-173), taken when the
inbound `lastKey` token carries a `lastPrimaryKey`: iterate the resolved
cursor with `fallbackIter` and decode its stop result.  Note the source
reads `res.primaryKey` (line 170) although the loop resolved with
`{lastPrimaryKey: ...}` (line 149), so the token's `lastPrimaryKey` is
`undefined` there — embedded faithfully. -/
def fallbackResp (q : Query) (lk : Key) (oc : Option (List Entry)) : QueryRangeResponse :=
  match oc with
  | none => { result := [] }
  | some cur =>
      match fallbackIter q.limit lk cur [] with
      | (out, none) => { result := out.map (item q.values) }
      | (out, some r) =>
          if r.passed then
            { result := out.map (item q.values)
              pageToken := some (PageToken.lastKey lk none)
              partialFlag := true }
          else if q.wantPageToken then
            { result := out.map (item q.values)
              pageToken := some (PageToken.lastKey lk r.primaryKey) }
          else { result := out.map (item q.values) }

/-- The range manipulation before the bulk read (source lines 130,
174-185): a present token rewrites the lower bound to its `lastKey`
(exclusive); absent token leaves the query unchanged.  Only `lastKey`
tokens reach this point on honest flows (others force the cursor path). -/
def bulkAdjust (q : Query) : Query :=
  match q.pageToken with
  | none => q
  | some t =>
      { q with range := { q.range with
          lower := match t with
                   | PageToken.lastKey lk _ => some lk
                   | _ => none,
          lowerOpen := true } }

/-- The bulk-scan path (source lines 187-256): a single `getAll` with the
configured limit; fewer than `limit` entries means exhaustion (no token);
otherwise build a token: `offset` for multi-valued indexes or outbound
primary keys with values; else derive `lastKey` from the last entry — for
values directly (with `lastPrimaryKey` unless the index is unique), for a
primary-key index the last key alone, and otherwise via a point lookup.
In that last branch the source assigns `lastKey: lastEntry` (the primary
key) and `lastPrimaryKey: idx.extractKey(value)` (the indexed key) —
embedded faithfully. -/
def bulkPath (s : Store) (q : Query) : QueryRangeResponse × List Op :=
  let q' := bulkAdjust q
  let entries := nextGetAll s q'
  let result := entries.map (item q.values)
  if entries.length < q.limit then
    ({ result := result }, [Op.getAllOp])
  else if s.idx.multiEntry || (q.values && decide (s.idx.keyLength = 0)) then
    (if q.wantPageToken then
      { result := result, pageToken := some (PageToken.offset q.limit) }
     else { result := result }, [Op.getAllOp])
  else if !q.wantPageToken then
    ({ result := result }, [Op.getAllOp])
  else
    let lastEntry := entries.getD (q.limit - 1) ⟨0, 0⟩
    if q.values then
      ({ result := result
         pageToken := some (PageToken.lastKey lastEntry.key
           (if s.idx.unique then none else some lastEntry.pk)) }, [Op.getAllOp])
    else if s.idx.isPrimaryKey then
      ({ result := result
         pageToken := some (PageToken.lastKey lastEntry.pk none) }, [Op.getAllOp])
    else
      ({ result := result
         pageToken := some (PageToken.lastKey lastEntry.pk
           ((nextGet s lastEntry.pk).map Entry.key)) }, [Op.getAllOp, Op.getOp])

/-- The paginated range query (source lines 86-257).  `limit == 0` is
special-cased first; then the strategy selector dispatches to the cursor
path; otherwise a `lastKey` token carrying a `lastPrimaryKey` takes the
cursor fallback sub-protocol, and everything else takes the bulk path.
The second component is the trace of store primitives invoked. -/
def queryRange (s : Store) (q : Query) : QueryRangeResponse × List Op :=
  if q.limit = 0 then
    if q.wantPageToken then
      ({ result := []
         pageToken := some (PageToken.cursor (resolveCursor s q).1) },
       (resolveCursor s q).2)
    else ({ result := [] }, [])
  else if useCursorB s q then
    (cursorPathResp q (resolveCursor s q).1, (resolveCursor s q).2)
  else
    match q.pageToken with
    | some (PageToken.lastKey lk (some _)) =>
        (fallbackResp q lk (resolveCursor s q).1, (resolveCursor s q).2)
    | _ => bulkPath s q

/-- Whether an optional token is a `lastKey` token carrying a
`lastPrimaryKey`. -/
def tokenHasLPK : Option PageToken → Bool
  | some (PageToken.lastKey _ (some _)) => true
  | _ => false

/-- Whether an optional token is a `cursor` token. -/
def isCursorTok : Option PageToken → Bool
  | some (PageToken.cursor _) => true
  | _ => false

/-- The underlying layer as a record of operations (the collaborator
contract of the spec). -/
structure DBCore where
  openCursor : Query → Option (List Entry)
  getAll : Query → List Entry
  get : Key → Option Entry
  cmp : Key → Key → Ordering

/-- Modelled from the spec: the underlying layer over a concrete store. -/
def nextCore (s : Store) : DBCore where
  openCursor := nextOpenCursor s
  getAll := nextGetAll s
  get := nextGet s
  cmp := compare

/-- The augmented core returned by the engine: the underlying operations
plus `queryRange`. -/
structure PagingCore extends DBCore where
  queryRange : Query → QueryRangeResponse

/-- The engine constructor (source lines 38-45): spread the underlying
core, add `queryRange`, and override `openCursor` to return `null` for
every query. -/
def KeyRangePagingEngine (s : Store) : PagingCore :=
  { nextCore s with
    openCursor := fun _ => none
    queryRange := fun q => (queryRange s q).1 }

/-- The repeated-pagination protocol: run `queryRange`, and while the
response carries a token, re-issue the base query with that token,
concatenating results.  `none` signals fuel exhaustion (the protocol did
not terminate within `fuel` calls). -/
def runPages (s : Store) (base : Query) : Nat → Option PageToken → Option (List Item)
  | 0, _ => none
  | fuel + 1, tok =>
      let resp := (queryRange s { base with pageToken := tok }).1
      match resp.pageToken with
      | none => some resp.result
      | some t => (runPages s base fuel (some t)).map (fun l => resp.result ++ l)

/-! Concrete instances used by the counterexamples and witnesses. -/

/-- Three records sharing indexed key 5 under a non-unique, non-primary
index of key length 1. -/
def dupStore : Store := ⟨[⟨5, 1⟩, ⟨5, 2⟩, ⟨5, 3⟩], ⟨1, false, false, false⟩⟩

/-- A full-range query for values, one entry per page, token wanted. -/
def dupQuery : Query := { limit := 1, values := true, wantPageToken := true }

/-- The resumption query after the first page over `dupStore`: a
`lastKey` token at key 5 with tie-break primary key 1. -/
def resumeQuery : Query :=
  { dupQuery with pageToken := some (PageToken.lastKey 5 (some 1)) }

/-- Ten records with indexed keys 101..110 over primary keys 1..10, under
a non-unique, non-primary index. -/
def tenStore : Store :=
  ⟨(List.range 10).map (fun i => ⟨101 + i, 1 + i⟩), ⟨1, false, false, false⟩⟩

/-- The same ten records under a unique (but non-primary) index. -/
def tenUniqueStore : Store :=
  ⟨(List.range 10).map (fun i => ⟨101 + i, 1 + i⟩), ⟨1, false, true, false⟩⟩

/-- A keys-only full-range query with limit 10, token wanted. -/
def tenKeysQuery : Query := { limit := 10, values := false, wantPageToken := true }

/-- A one-record store. -/
def oneStore : Store := ⟨[⟨1, 1⟩], ⟨1, false, false, false⟩⟩

/-- A plain full-range query with limit 1. -/
def oneQuery : Query := { limit := 1 }

/-- An empty store. -/
def emptyStore : Store := ⟨[], ⟨1, false, false, false⟩⟩

/-- A full-range query with limit 1 over empty data, token wanted. -/
def emptyQuery : Query := { limit := 1, wantPageToken := true }

/-- A store whose duplicate group for key 5 is exhausted: one record on
key 5, the next on key 6. -/
def passStore : Store := ⟨[⟨5, 1⟩, ⟨6, 2⟩], ⟨1, false, false, false⟩⟩

/-- A resumption query at `(lastKey 5, lastPrimaryKey 1)` with no token
wanted, to exercise the "passed" outcome. -/
def passQuery : Query :=
  { limit := 5, values := true, wantPageToken := false,
    pageToken := some (PageToken.lastKey 5 (some 1)) }

/-- A reverse full-range query. -/
def revQuery : Query := { limit := 5, reverse := true, wantPageToken := true }

/-- Two entries of a multi-valued index. -/
def multiStore : Store := ⟨[⟨1, 1⟩, ⟨2, 1⟩], ⟨1, true, false, false⟩⟩

/-- A values query with limit 1 over the multi-valued index, token
wanted. -/
def multiQuery : Query := { limit := 1, values := true, wantPageToken := true }

/-- A query with limit 0, token wanted. -/
def zeroQuery : Query := { limit := 0, wantPageToken := true }

/-! Helper lemmas shared by the claim theorems. -/

/-- The internal cursor resolver only ever invokes `openCursor` on the
underlying layer, never `getAll`. -/
theorem getAllOp_not_mem_resolveCursor (s : Store) (q : Query) :
    Op.getAllOp ∉ (resolveCursor s q).2 := by
  rcases htok : q.pageToken with _ | tok
  · simp [resolveCursor, htok]
  · rcases tok with c | n | ⟨lk, lpk⟩
    · simp [resolveCursor, htok]
    · simp [resolveCursor, htok]
    · rcases lpk with _ | p <;> simp [resolveCursor, htok]

/-! Claim theorems. -/

/-- C5: in the cursor fallback sub-protocol for a `lastKey` token carrying
a `lastPrimaryKey`, when the iteration stops because an entry's indexed
key is strictly past `lastKey` before the limit is reached (the loop
resolved with `passed`), the response has `partial = true` and carries a
plain `lastKey` token without `lastPrimaryKey`, regardless of
`wantPageToken`. -/
theorem c5_passed_yields_partial_plain_lastKey
    (s : Store) (q : Query) (lk p : Key) (cur out : List Entry) (r : StopRes)
    (hlim : q.limit ≠ 0)
    (huse : useCursorB s q = false)
    (hpt : q.pageToken = some (PageToken.lastKey lk (some p)))
    (hcur : (resolveCursor s q).1 = some cur)
    (hfi : fallbackIter q.limit lk cur [] = (out, some r))
    (hr : r.passed = true) :
    (queryRange s q).1 =
      { result := out.map (item q.values)
        pageToken := some (PageToken.lastKey lk none)
        partialFlag := true } := by
  unfold queryRange
  rw [if_neg hlim, if_neg (by simp [huse])]
  simp only [hpt]
  unfold fallbackResp
  rw [hcur]
  simp only [hfi, hr, if_true]

/-- Witness for C5 at a concrete input: resuming `passStore` at
`(lastKey 5, lastPrimaryKey 1)` immediately meets key 6, so the response
is partial with a plain `lastKey 5` token although no token was wanted. -/
theorem c5_passed_witness :
    (queryRange passStore passQuery).1 =
      { result := ([] : List Entry).map (item passQuery.values)
        pageToken := some (PageToken.lastKey 5 none)
        partialFlag := true } :=
  c5_passed_yields_partial_plain_lastKey passStore passQuery 5 1
    [⟨6, 2⟩] [] { passed := true }
    (by decide) (by decide) rfl (by decide) (by decide) rfl

/-- C7 (counterexample): over an empty range with `limit = 1` and
`wantPageToken = true`, the response carries NO page token, refuting the
claim that a cursor-type token is returned iff `wantPageToken`. -/
theorem c7_empty_range_token_counterexample :
    emptyQuery.wantPageToken = true ∧
    (queryRange emptyStore emptyQuery).1.result = [] ∧
    (queryRange emptyStore emptyQuery).1.pageToken = none := by
  decide

/-- C7 (amended): for every token-free query with `limit > 0` whose range
matches no entries, the result is empty and no page token is returned,
regardless of `wantPageToken`. -/
theorem c7_empty_range_empty_result_no_token (s : Store) (q : Query)
    (hpt : q.pageToken = none)
    (hlim : 0 < q.limit)
    (hempty : rangeEntries s q.range = []) :
    (queryRange s q).1 = { result := [] } := by
  have hseq : iterSeq s q = [] := by
    unfold iterSeq
    rw [hempty]
    cases q.reverse <;> cases q.unique <;> simp [dedupByKey]
  have hoc : nextOpenCursor s q = none := by
    unfold nextOpenCursor
    rw [hseq]
  have hlim' : q.limit ≠ 0 := Nat.pos_iff_ne_zero.mp hlim
  unfold queryRange
  rw [if_neg hlim']
  by_cases hu : useCursorB s q
  · rw [if_pos hu]
    simp [cursorPathResp, resolveCursor, hpt, hoc]
  · rw [if_neg hu]
    simp only [hpt]
    simp [bulkPath, bulkAdjust, hpt, nextGetAll, hempty, Nat.pos_iff_ne_zero.mp hlim,
      Nat.pos_of_ne_zero hlim']

/-- Witness for C7 (amended) at a concrete input: the empty store with
`limit = 1` and a token wanted yields an empty, token-free response. -/
theorem c7_empty_range_witness :
    (queryRange emptyStore emptyQuery).1 = { result := [] } :=
  c7_empty_range_empty_result_no_token emptyStore emptyQuery rfl (by decide) rfl

/-- C8: every reverse query selects the cursor strategy, and `queryRange`
never invokes the underlying `getAll` on it, regardless of the other
flags, the index shape, and the inbound token. -/
theorem c8_reverse_never_getAll (s : Store) (q : Query)
    (hrev : q.reverse = true) :
    useCursorB s q = true ∧ Op.getAllOp ∉ (queryRange s q).2 := by
  have hu : useCursorB s q = true := by simp [useCursorB, hrev]
  refine ⟨hu, ?_⟩
  have hres := getAllOp_not_mem_resolveCursor s q
  unfold queryRange
  by_cases h0 : q.limit = 0
  · rw [if_pos h0]
    by_cases hw : q.wantPageToken
    · simpa [hw] using hres
    · simp [hw]
  · rw [if_neg h0, if_pos hu]
    exact hres

/-- Witness for C8 at a concrete input: a reverse query over `dupStore`
issues no `getAll`. -/
theorem c8_reverse_witness :
    revQuery.reverse = true ∧
    (useCursorB dupStore revQuery = true ∧
      Op.getAllOp ∉ (queryRange dupStore revQuery).2) :=
  ⟨rfl, c8_reverse_never_getAll dupStore revQuery rfl⟩

/-- C9: on the bulk-scan path (limit nonzero, cursor strategy not
selected, inbound token without a `lastPrimaryKey`), when exactly `limit`
entries come back, a token is wanted, and the index is multi-valued or
(values with zero key length), the response carries an `offset` token
whose count equals `limit`. -/
theorem c9_multiEntry_offset_token (s : Store) (q : Query)
    (hlim : q.limit ≠ 0)
    (huse : useCursorB s q = false)
    (hnol : tokenHasLPK q.pageToken = false)
    (hflag : (s.idx.multiEntry || (q.values && decide (s.idx.keyLength = 0))) = true)
    (hwant : q.wantPageToken = true)
    (hlen : (nextGetAll s (bulkAdjust q)).length = q.limit) :
    (queryRange s q).1 =
      { result := (nextGetAll s (bulkAdjust q)).map (item q.values)
        pageToken := some (PageToken.offset q.limit) } := by
  unfold queryRange
  rw [if_neg hlim, if_neg (by simp [huse])]
  have hbulk : (match q.pageToken with
      | some (PageToken.lastKey lk (some _)) =>
          (fallbackResp q lk (resolveCursor s q).1, (resolveCursor s q).2)
      | _ => bulkPath s q) = bulkPath s q := by
    rcases htok : q.pageToken with _ | tok
    · rfl
    · rcases tok with c | n | ⟨lk, lpk⟩
      · exact absurd huse (by simp [useCursorB, htok])
      · exact absurd huse (by simp [useCursorB, htok])
      · rcases lpk with _ | p
        · rfl
        · exact absurd hnol (by simp [tokenHasLPK, htok])
  rw [hbulk]
  unfold bulkPath
  simp only [hlen, Nat.lt_irrefl, if_false, hflag, if_true, hwant,
    Bool.not_true]

/-- Witness for C9 at a concrete input: a one-per-page values query over
the multi-valued index `multiStore` yields an `offset 1` token. -/
theorem c9_offset_token_witness :
    (queryRange multiStore multiQuery).1 =
      { result := (nextGetAll multiStore (bulkAdjust multiQuery)).map (item multiQuery.values)
        pageToken := some (PageToken.offset multiQuery.limit) } :=
  c9_multiEntry_offset_token multiStore multiQuery
    (by decide) (by decide) rfl (by decide) rfl (by decide)

/-- C10: with `limit = 0` the result is always empty; with
`wantPageToken` the response carries a cursor-type token embedding the
freshly resolved cursor at its initial position (no entry consumed), and
without it the response carries no token. -/
theorem c10_limit_zero (s : Store) (q : Query) (hlim : q.limit = 0) :
    (queryRange s q).1 =
      if q.wantPageToken then
        { result := []
          pageToken := some (PageToken.cursor (resolveCursor s q).1) }
      else { result := [] } := by
  unfold queryRange
  rw [if_pos hlim]
  by_cases hw : q.wantPageToken <;> simp [hw]

/-- Witness for C10 at a concrete input: `limit = 0` with a token wanted
over `dupStore`. -/
theorem c10_limit_zero_witness :
    (queryRange dupStore zeroQuery).1 =
      if zeroQuery.wantPageToken then
        { result := []
          pageToken := some (PageToken.cursor (resolveCursor dupStore zeroQuery).1) }
      else { result := [] } :=
  c10_limit_zero dupStore zeroQuery rfl

/-- C6 (counterexample): `openCursor` on the wrapped core is NOT the
underlying layer's `openCursor`: the wrapper overrides it to return
`null` for every query, while the underlying layer returns a cursor over
the non-empty range of `oneStore`. -/
theorem c6_openCursor_not_passthrough :
    (KeyRangePagingEngine oneStore).openCursor oneQuery = none ∧
    (nextCore oneStore).openCursor oneQuery = some [⟨1, 1⟩] := by
  decide

/-- C6 (amended): the wrapped core passes `getAll`, `get` and `cmp`
through to the underlying layer unchanged and adds `queryRange`, but its
`openCursor` is overridden to return `null` for every query. -/
theorem c6_passthrough_except_openCursor (s : Store) :
    (KeyRangePagingEngine s).getAll = (nextCore s).getAll ∧
    (KeyRangePagingEngine s).get = (nextCore s).get ∧
    (KeyRangePagingEngine s).cmp = (nextCore s).cmp ∧
    (KeyRangePagingEngine s).queryRange = (fun q => (queryRange s q).1) ∧
    ∀ q : Query, (KeyRangePagingEngine s).openCursor q = none :=
  ⟨rfl, rfl, rfl, rfl, fun _ => rfl⟩

/-- C1 (code bug, evaluated): paginating `dupStore` one entry per page
terminates after two pages and skips the record `(5, 3)`, while the
single unbounded scan of the same range returns all three records; the
concatenation therefore differs from the scan. -/
theorem c1_roundtrip_skips_entry :
    runPages dupStore dupQuery 5 none =
      some [Item.val ⟨5, 1⟩, Item.val ⟨5, 2⟩] ∧
    refScan dupStore dupQuery =
      [Item.val ⟨5, 1⟩, Item.val ⟨5, 2⟩, Item.val ⟨5, 3⟩] ∧
    runPages dupStore dupQuery 5 none ≠ some (refScan dupStore dupQuery) := by
  decide

/-- C2 (code bug, evaluated): on the keys-only bulk path over a
non-unique non-primary index, the emitted token is
`lastKey 10 (lastPrimaryKey 110)`: the `lastKey` field holds the primary
key 10 and the `lastPrimaryKey` field holds the extracted indexed key 110
of the fetched record — the two fields the claim describes, swapped. -/
theorem c2_keysOnly_token_fields_swapped :
    (queryRange tenStore tenKeysQuery).1.pageToken =
      some (PageToken.lastKey 10 (some 110)) ∧
    (nextGet tenStore 10).map Entry.key = some 110 := by
  decide

/-- C3 (code bug, evaluated): with the same data under a unique
(non-primary) index, the keys-only bulk path still emits a token carrying
a `lastPrimaryKey`, although the claim says unique-index tokens never
carry one. -/
theorem c3_unique_index_token_carries_lastPrimaryKey :
    tenUniqueStore.idx.unique = true ∧
    tokenHasLPK (queryRange tenUniqueStore tenKeysQuery).1.pageToken = true := by
  decide

/-- C4 (code bug, evaluated): resuming `dupStore` at
`(lastKey 5, lastPrimaryKey 1)` with `limit = 1` stops on the entry with
primary key 2, yet the emitted token is `lastKey 5` with NO
`lastPrimaryKey`, not the claimed `lastKey 5 (lastPrimaryKey 2)`. -/
theorem c4_fallback_token_drops_lastPrimaryKey :
    (queryRange dupStore resumeQuery).1 =
      { result := [Item.val ⟨5, 2⟩]
        pageToken := some (PageToken.lastKey 5 none) } ∧
    (queryRange dupStore resumeQuery).1.pageToken ≠
      some (PageToken.lastKey 5 (some 2)) := by
  decide

end KRP
